import Mathlib

/-!
Shallow embedding of the `dioxide` Rust core (`src/rust/src/lib.rs`): a
dependency-injection container backed by a provider registry and a singleton
cache, exposed to Python through a thin facade.

Modelling conventions:
* A Python object is identified by its identity (the pointer the runtime hands
  out); we model object identity as a natural number `PyObj`.  `clone_ref`
  returns a new reference to the *same* underlying object, so it is the
  identity function on `PyObj`.
* A Python type object (`Py<PyType>`) is a descriptor with a stable address and
  a display name; we model it as `PyTypeObj` with a `ptr` and a `name`.
* Invoking a Python callable (`call0`) is external to the container.  We model
  the Python runtime as a `PyWorld` holding a fresh-object allocator, a log of
  every callable invocation, and a per-callable behaviour (`raises` an
  exception, or `constructs` a freshly allocated object).  Constructing a value
  allocates the next fresh identity, so independently constructed values are
  distinct.
* The two `HashMap`s are modelled as association lists with the source's
  pointer-equality on keys; `insert` follows `HashMap::insert` semantics
  (replace an existing binding).
-/

namespace Dioxide

/-- Identity of a Python object: the runtime address, abstracted as a `Nat`.
Two handles denote the same object iff their `PyObj` values are equal. -/
abbrev PyObj := Nat

/-- A raised Python exception: its exception type and its message.
`pyErrToDisplay` plays the role of `PyErr`'s `to_string`. -/
structure PyErr where
  excType : String
  msg : String
deriving DecidableEq, Repr

/-- The display string of a `PyErr`, as produced by `err.to_string()` in the
`From<PyErr> for ContainerError` impl (lib.rs:24-28): the exception type and
message collapsed into one string. -/
def pyErrToDisplay (e : PyErr) : String :=
  e.excType ++ ": " ++ e.msg

/-- Embedding of `ContainerError` (lib.rs:9-22): the container's error enum.  Note there is
no `ConstructionFailed` variant; Python-side failures are wrapped as
`PythonError` carrying only the stringified cause. -/
inductive ContainerError where
  | DependencyNotRegistered (type_name : String)
  | ProviderRegistrationFailed (type_name : String) (reason : String)
  | DuplicateRegistration (type_name : String)
  | PythonError (message : String)
deriving DecidableEq, Repr

/-- The `thiserror` display strings of `ContainerError` (lib.rs:11-21). -/
def containerErrorToDisplay : ContainerError → String
  | .DependencyNotRegistered t => "Dependency not registered: " ++ t
  | .ProviderRegistrationFailed t r => "Provider registration failed: " ++ t ++ " - " ++ r
  | .DuplicateRegistration t => "Duplicate provider registration: " ++ t
  | .PythonError s => "Python error: " ++ s

/-- Embedding of `From<PyErr> for ContainerError` (lib.rs:24-28): a raised Python exception
becomes `PythonError(err.to_string())`. -/
def containerErrorFromPyErr (e : PyErr) : ContainerError :=
  .PythonError (pyErrToDisplay e)

/-- A Python type object (`Py<PyType>`): a descriptor at a stable address
(`ptr`, what `as_ptr` returns) with a display name (`name`, what `.name()`
returns).  Distinct descriptors have distinct addresses, but nothing prevents
two distinct descriptors from sharing a display name. -/
structure PyTypeObj where
  ptr : Nat
  name : String
deriving DecidableEq, Repr

/-- Embedding of `TypeKey` (lib.rs:31-35): the registry key wrapping a Python type object. -/
structure TypeKey where
  py_type : PyTypeObj
deriving DecidableEq, Repr

/-- Embedding of `TypeKey::new` (lib.rs:38-40). -/
def TypeKey.new (t : PyTypeObj) : TypeKey :=
  ⟨t⟩

/-- Embedding of `TypeKey::type_name` (lib.rs:42-48): the display name of the wrapped type
object (the `"<unknown>"` fallback of a failing `.name()` call is elided; the
model's `.name` is total). -/
def TypeKey.type_name (k : TypeKey) : String :=
  k.py_type.name

/-- Embedding of `PartialEq for TypeKey` (lib.rs:59-64): pointer equality on the wrapped
type object, never name or content equality. -/
def TypeKey.eqKey (a b : TypeKey) : Bool :=
  a.py_type.ptr == b.py_type.ptr

/-- Embedding of `Hash for TypeKey` (lib.rs:51-57): only the pointer is fed to the hasher,
so for any hasher `h` the hash of a key is `h` of its pointer. -/
def TypeKey.hashKey (h : Nat → Nat) (a : TypeKey) : Nat :=
  h a.py_type.ptr

/-- Embedding of `Provider` (lib.rs:69-79): the three provider variants.  Each payload is a
Python object handle (for `Class`, the handle of the class object). -/
inductive Provider where
  | Instance (obj : PyObj)
  | Class (cls : PyObj)
  | Factory (factory : PyObj)
deriving DecidableEq, Repr

/-- Model of `clone_ref` on a `PyObject`: a new reference to the same underlying
object, so the identity is unchanged. -/
def clone_ref (obj : PyObj) : PyObj :=
  obj

/-- Behaviour of a Python callable when invoked with no arguments: it either
raises an exception or constructs (allocates) a fresh object. -/
inductive CallSpec where
  | raises (e : PyErr)
  | constructs
deriving DecidableEq, Repr

/-- The state of the external Python runtime: the next fresh object identity,
the log of every callable invocation (most recent first), and the behaviour of
each callable. -/
structure PyWorld where
  nextId : Nat
  calls : List PyObj
  callSpec : PyObj → CallSpec

/-- Model of `call0` on a Python callable: the invocation is logged, then the callable
either raises or returns a freshly allocated object. -/
def call0 (w : PyWorld) (f : PyObj) : Except PyErr PyObj × PyWorld :=
  let w' : PyWorld := { w with calls := f :: w.calls }
  match w.callSpec f with
  | .raises e => (.error e, w')
  | .constructs => (.ok w'.nextId, { w' with nextId := w'.nextId + 1 })

/-- Model of `HashMap::get` on the association-list model: the value bound to the first
key equal (by `TypeKey.eqKey`, i.e. pointer equality) to `k`. -/
def findEntry {α : Type} : List (TypeKey × α) → TypeKey → Option α
  | [], _ => none
  | (k', v) :: rest, k => if TypeKey.eqKey k' k then some v else findEntry rest k

/-- Model of `HashMap::contains_key` on the association-list model. -/
def containsEntry {α : Type} (l : List (TypeKey × α)) (k : TypeKey) : Bool :=
  (findEntry l k).isSome

/-- Remove every binding for `k` (helper for `insertEntry`). -/
def eraseEntry {α : Type} (l : List (TypeKey × α)) (k : TypeKey) : List (TypeKey × α) :=
  l.filter (fun p => !(TypeKey.eqKey p.1 k))

/-- Model of `HashMap::insert` on the association-list model: replace any existing
binding for `k` with `v`. -/
def insertEntry {α : Type} (l : List (TypeKey × α)) (k : TypeKey) (v : α) :
    List (TypeKey × α) :=
  (k, v) :: eraseEntry l k

/-- Embedding of `RustContainer` (lib.rs:82-88): the provider registry and the singleton
cache.  The `Arc<RwLock<..>>` wrappers serialise concurrent access; the
sequential state is the two maps. -/
structure RustContainer where
  providers : List (TypeKey × Provider)
  singletons : List (TypeKey × PyObj)

/-- Embedding of `RustContainer::new` (lib.rs:92-97): both maps start empty. -/
def RustContainer.new : RustContainer :=
  { providers := [], singletons := [] }

/-- Embedding of `RustContainer::register_instance` (lib.rs:100-117): under the registry
write lock, fail with `DuplicateRegistration` if the key is present (leaving
the state untouched), otherwise insert an `Instance` provider. -/
def RustContainer.register_instance (c : RustContainer) (type_key : TypeKey)
    (inst : PyObj) : Except ContainerError Unit × RustContainer :=
  if containsEntry c.providers type_key then
    (.error (.DuplicateRegistration type_key.type_name), c)
  else
    (.ok (), { c with providers := insertEntry c.providers type_key (.Instance inst) })

/-- Embedding of `RustContainer::register_class` (lib.rs:120-137): same contract, inserting
a `Class` provider. -/
def RustContainer.register_class (c : RustContainer) (type_key : TypeKey)
    (cls : PyObj) : Except ContainerError Unit × RustContainer :=
  if containsEntry c.providers type_key then
    (.error (.DuplicateRegistration type_key.type_name), c)
  else
    (.ok (), { c with providers := insertEntry c.providers type_key (.Class cls) })

/-- Embedding of `RustContainer::register_factory` (lib.rs:140-157): same contract,
inserting a `Factory` provider. -/
def RustContainer.register_factory (c : RustContainer) (type_key : TypeKey)
    (factory : PyObj) : Except ContainerError Unit × RustContainer :=
  if containsEntry c.providers type_key then
    (.error (.DuplicateRegistration type_key.type_name), c)
  else
    (.ok (), { c with providers := insertEntry c.providers type_key (.Factory factory) })

/-- Embedding of `RustContainer::resolve` (lib.rs:160-187): check the singleton cache
first; on a miss look up the provider (failing with `DependencyNotRegistered`
if absent); dispatch on the variant — an `Instance` is returned via
`clone_ref`, a `Class` or `Factory` is invoked via `call0`, with a raised
exception converted through `From<PyErr>`.  The method takes only read locks,
so the container state it returns is the one it was given. -/
def RustContainer.resolve (c : RustContainer) (w : PyWorld) (type_key : TypeKey) :
    Except ContainerError PyObj × RustContainer × PyWorld :=
  match findEntry c.singletons type_key with
  | some inst => (.ok (clone_ref inst), c, w)
  | none =>
    match findEntry c.providers type_key with
    | none => (.error (.DependencyNotRegistered type_key.type_name), c, w)
    | some (.Instance obj) => (.ok (clone_ref obj), c, w)
    | some (.Class cls) =>
      match call0 w cls with
      | (.error e, w') => (.error (containerErrorFromPyErr e), c, w')
      | (.ok obj, w') => (.ok obj, c, w')
    | some (.Factory factory) =>
      match call0 w factory with
      | (.error e, w') => (.error (containerErrorFromPyErr e), c, w')
      | (.ok obj, w') => (.ok obj, c, w')

/-- Embedding of `RustContainer::is_empty` (lib.rs:190-192): whether the registry is empty;
the singleton cache is not consulted. -/
def RustContainer.is_empty (c : RustContainer) : Bool :=
  c.providers.isEmpty

/-- Embedding of `RustContainer::len` (lib.rs:195-197): the size of the registry map; the
singleton cache is not consulted. -/
def RustContainer.len (c : RustContainer) : Nat :=
  c.providers.length

/-- An operation on the container, as exposed by its public surface.  `lenOp`
and `isEmptyOp` only read state; they are included so that reachability ranges
over the full public surface. -/
inductive Op where
  | regInstance (t : TypeKey) (v : PyObj)
  | regClass (t : TypeKey) (cls : PyObj)
  | regFactory (t : TypeKey) (f : PyObj)
  | resolveOp (t : TypeKey)
  | lenOp
  | isEmptyOp

/-- Effect of one public operation on the container-and-runtime state (the
operation's return value is discarded; registers leave the runtime untouched,
`len`/`is_empty` return scalars and touch nothing). -/
def step (s : RustContainer × PyWorld) : Op → RustContainer × PyWorld
  | .regInstance t v => ((s.1.register_instance t v).2, s.2)
  | .regClass t cls => ((s.1.register_class t cls).2, s.2)
  | .regFactory t f => ((s.1.register_factory t f).2, s.2)
  | .resolveOp t => (s.1.resolve s.2 t).2
  | .lenOp => s
  | .isEmptyOp => s

/-- Run a sequence of public operations from a fresh container. -/
def run (w0 : PyWorld) (ops : List Op) : RustContainer × PyWorld :=
  ops.foldl step (RustContainer.new, w0)

/-- A container state is reachable when some sequence of public operations,
starting from `RustContainer::new` in some Python runtime, produces it. -/
def Reachable (c : RustContainer) : Prop :=
  ∃ w0 ops, (run w0 ops).1 = c

/-- Whether an operation is a registration call that returns `Ok` in the given
state. -/
def opRegisterOk (s : RustContainer × PyWorld) : Op → Bool
  | .regInstance t v =>
    match (s.1.register_instance t v).1 with
    | .ok _ => true
    | .error _ => false
  | .regClass t v =>
    match (s.1.register_class t v).1 with
    | .ok _ => true
    | .error _ => false
  | .regFactory t v =>
    match (s.1.register_factory t v).1 with
    | .ok _ => true
    | .error _ => false
  | _ => false

/-- Number of successful registration calls along a run of operations. -/
def countOkRegs : RustContainer × PyWorld → List Op → Nat
  | _, [] => 0
  | s, op :: rest => (if opRegisterOk s op then 1 else 0) + countOkRegs (step s op) rest

/-- Modelled from the spec (§4.2 step 2-4): a registry-only
lookup-and-dispatch, i.e. `resolve` with the singleton-cache consultation
removed.  Used to state that `resolve` degenerates to it while the cache stays
empty. -/
def resolveRegistryOnly (c : RustContainer) (w : PyWorld) (type_key : TypeKey) :
    Except ContainerError PyObj × RustContainer × PyWorld :=
  match findEntry c.providers type_key with
  | none => (.error (.DependencyNotRegistered type_key.type_name), c, w)
  | some (.Instance obj) => (.ok (clone_ref obj), c, w)
  | some (.Class cls) =>
    match call0 w cls with
    | (.error e, w') => (.error (containerErrorFromPyErr e), c, w')
    | (.ok obj, w') => (.ok obj, c, w')
  | some (.Factory factory) =>
    match call0 w factory with
    | (.error e, w') => (.error (containerErrorFromPyErr e), c, w')
    | (.ok obj, w') => (.ok obj, c, w')

/-- Iterated resolution: `n` successive calls to `resolve` on the same key, threading the states;
returns the list of results in call order and the final states. -/
def resolveTimes (c : RustContainer) (w : PyWorld) (k : TypeKey) :
    Nat → List (Except ContainerError PyObj) × RustContainer × PyWorld
  | 0 => ([], c, w)
  | n + 1 =>
    let r := c.resolve w k
    let rest := resolveTimes r.2.1 r.2.2 k n
    (r.1 :: rest.1, rest.2)

/-- Embedding of `PyErr::new::<PyKeyError, _>(e.to_string())` (lib.rs:227, 235, 243, 251):
the Python exception the facade raises for a container error — a `KeyError`
carrying only the formatted message string. -/
def keyErrorOf (e : ContainerError) : PyErr :=
  ⟨"KeyError", containerErrorToDisplay e⟩

namespace Container

/-- Facade `Container::register_instance` (lib.rs:223-228): build the key from
the Python type object, delegate to the core, and map any error to a
`KeyError`. -/
def register_instance (c : RustContainer) (py_type : PyTypeObj) (inst : PyObj) :
    Except PyErr Unit × RustContainer :=
  let r := c.register_instance (TypeKey.new py_type) inst
  (r.1.mapError keyErrorOf, r.2)

/-- Facade `Container::register_class` (lib.rs:231-236). -/
def register_class (c : RustContainer) (py_type : PyTypeObj) (cls : PyObj) :
    Except PyErr Unit × RustContainer :=
  let r := c.register_class (TypeKey.new py_type) cls
  (r.1.mapError keyErrorOf, r.2)

/-- Facade `Container::register_factory` (lib.rs:239-244). -/
def register_factory (c : RustContainer) (py_type : PyTypeObj) (factory : PyObj) :
    Except PyErr Unit × RustContainer :=
  let r := c.register_factory (TypeKey.new py_type) factory
  (r.1.mapError keyErrorOf, r.2)

/-- Facade `Container::resolve` (lib.rs:247-252). -/
def resolve (c : RustContainer) (w : PyWorld) (py_type : PyTypeObj) :
    Except PyErr PyObj × RustContainer × PyWorld :=
  let r := c.resolve w (TypeKey.new py_type)
  (r.1.mapError keyErrorOf, r.2)

end Container

/-! Concrete fixtures used by witnesses and counterexamples. -/

/-- A type descriptor at address 1 named `ServiceA`. -/
def tA : PyTypeObj := ⟨1, "ServiceA"⟩

/-- The registry key for `tA`. -/
def kA : TypeKey := ⟨tA⟩

/-- The registry key for a descriptor at address 2 named `ServiceB`. -/
def kB : TypeKey := ⟨⟨2, "ServiceB"⟩⟩

/-- A key for a *different* descriptor (address 3) that happens to share
`ServiceA`'s display name. -/
def kSameNameAsA : TypeKey := ⟨⟨3, "ServiceA"⟩⟩

/-- A runtime in which every callable constructs a fresh object. -/
def wDemo : PyWorld := ⟨10, [], fun _ => .constructs⟩

/-- A runtime in which every callable raises `ValueError: boom`. -/
def wRaising : PyWorld := ⟨10, [], fun _ => .raises ⟨"ValueError", "boom"⟩⟩

/-- A container with `kA` registered to `Instance 5`. -/
def cDemo : RustContainer := { providers := [(kA, .Instance 5)], singletons := [] }

/-- A container with `kB` registered to `Class 9` (the class object has
identity 9). -/
def cClassDemo : RustContainer := { providers := [(kB, .Class 9)], singletons := [] }

/-- A container in which two distinct identities share the same factory
callable (identity 9). -/
def cTwoFactories : RustContainer :=
  { providers := [(kA, .Factory 9), (kB, .Factory 9)], singletons := [] }

/-- A container whose singleton cache holds an entry for `kA` (such a state is
not reachable through the public surface; it exercises the cache-hit branch of
`resolve`). -/
def cCached : RustContainer := { providers := [], singletons := [(kA, 42)] }

/-- The runtime state after one constructing `call0` on `g`. -/
def afterConstruct (w : PyWorld) (g : PyObj) : PyWorld :=
  { nextId := w.nextId + 1, calls := g :: w.calls, callSpec := w.callSpec }

/-! Helper lemmas. -/

/-- Erasing an absent key is the identity, so `HashMap::insert` of a fresh key
only prepends. -/
theorem eraseEntry_of_not_contains {α : Type} (l : List (TypeKey × α)) (k : TypeKey)
    (h : containsEntry l k = false) : eraseEntry l k = l := by
  induction l with
  | nil => rfl
  | cons p rest ih =>
    simp only [containsEntry, findEntry] at h
    simp only [eraseEntry, List.filter]
    cases heq : TypeKey.eqKey p.1 k with
    | true => simp [heq] at h
    | false =>
      simp only [heq] at h ⊢
      simp only [Bool.not_false]
      have := ih (by simpa [containsEntry] using h)
      simpa [eraseEntry] using this

/-- Because `resolve` takes only read locks, the container it returns is the one it
was given. -/
theorem resolve_container_eq (c : RustContainer) (w : PyWorld) (k : TypeKey) :
    (c.resolve w k).2.1 = c := by
  unfold RustContainer.resolve
  cases h1 : findEntry c.singletons k with
  | some inst => rfl
  | none =>
    cases h2 : findEntry c.providers k with
    | none => rfl
    | some p =>
      cases p with
      | Instance obj => rfl
      | Class cls =>
        rcases h3 : call0 w cls with ⟨r, w'⟩
        cases r <;> simp [h3]
      | Factory f =>
        rcases h3 : call0 w f with ⟨r, w'⟩
        cases r <;> simp [h3]

/-- No public operation changes the singleton cache. -/
theorem step_singletons (s : RustContainer × PyWorld) (op : Op) :
    (step s op).1.singletons = s.1.singletons := by
  cases op with
  | regInstance t v =>
    simp only [step, RustContainer.register_instance]
    by_cases hc : containsEntry s.1.providers t <;> simp [hc]
  | regClass t cls =>
    simp only [step, RustContainer.register_class]
    by_cases hc : containsEntry s.1.providers t <;> simp [hc]
  | regFactory t f =>
    simp only [step, RustContainer.register_factory]
    by_cases hc : containsEntry s.1.providers t <;> simp [hc]
  | resolveOp t => simp [step, resolve_container_eq]
  | lenOp => rfl
  | isEmptyOp => rfl

/-- Along any run, the singleton cache stays what it started as. -/
theorem foldl_singletons (ops : List Op) (s : RustContainer × PyWorld) :
    ((ops.foldl step s).1).singletons = s.1.singletons := by
  induction ops generalizing s with
  | nil => rfl
  | cons op rest ih => rw [List.foldl_cons, ih, step_singletons]

/-- From a fresh container, the singleton cache is always empty. -/
theorem run_singletons (w0 : PyWorld) (ops : List Op) :
    (run w0 ops).1.singletons = [] := by
  simpa [run] using foldl_singletons ops (RustContainer.new, w0)

/-- Every reachable container has an empty singleton cache. -/
theorem reachable_singletons (c : RustContainer) (h : Reachable c) :
    c.singletons = [] := by
  rcases h with ⟨w0, ops, rfl⟩
  exact run_singletons w0 ops

/-- With an empty singleton cache, `resolve` is the registry-only
lookup-and-dispatch. -/
theorem resolve_eq_registryOnly (c : RustContainer) (w : PyWorld) (k : TypeKey)
    (h : c.singletons = []) :
    c.resolve w k = resolveRegistryOnly c w k := by
  unfold RustContainer.resolve resolveRegistryOnly
  rw [h]
  rfl

/-- Inserting a fresh key grows the map by exactly one entry. -/
theorem insertEntry_length_of_not_contains {α : Type} (l : List (TypeKey × α))
    (k : TypeKey) (v : α) (h : containsEntry l k = false) :
    (insertEntry l k v).length = l.length + 1 := by
  simp [insertEntry, eraseEntry_of_not_contains l k h]

/-- One public operation grows the registry by one exactly when it is a
successful registration, and never otherwise. -/
theorem step_len (s : RustContainer × PyWorld) (op : Op) :
    (step s op).1.len = s.1.len + (if opRegisterOk s op then 1 else 0) := by
  cases op with
  | regInstance t v =>
    simp only [step, opRegisterOk, RustContainer.register_instance]
    by_cases hc : containsEntry s.1.providers t
    · simp [hc, RustContainer.len]
    · simp [hc, RustContainer.len,
        insertEntry_length_of_not_contains _ _ _ (by simpa using hc)]
  | regClass t cls =>
    simp only [step, opRegisterOk, RustContainer.register_class]
    by_cases hc : containsEntry s.1.providers t
    · simp [hc, RustContainer.len]
    · simp [hc, RustContainer.len,
        insertEntry_length_of_not_contains _ _ _ (by simpa using hc)]
  | regFactory t f =>
    simp only [step, opRegisterOk, RustContainer.register_factory]
    by_cases hc : containsEntry s.1.providers t
    · simp [hc, RustContainer.len]
    · simp [hc, RustContainer.len,
        insertEntry_length_of_not_contains _ _ _ (by simpa using hc)]
  | resolveOp t => simp [step, opRegisterOk, resolve_container_eq]
  | lenOp => simp [step, opRegisterOk]
  | isEmptyOp => simp [step, opRegisterOk]

/-- Along any run, the registry size grows by the number of successful
registrations. -/
theorem foldl_len (ops : List Op) (s : RustContainer × PyWorld) :
    ((ops.foldl step s).1).len = s.1.len + countOkRegs s ops := by
  induction ops generalizing s with
  | nil => simp [countOkRegs]
  | cons op rest ih =>
    rw [List.foldl_cons, ih, step_len]
    simp only [countOkRegs]
    omega

/-- The method `is_empty` agrees with `len == 0` on every container. -/
theorem is_empty_iff_len (c : RustContainer) : c.is_empty = true ↔ c.len = 0 := by
  cases h : c.providers <;> simp [RustContainer.is_empty, RustContainer.len, h]

/-! The claims. -/

/-- C1: for every container state and every identity already present in the
registry, a second call to any of `register_instance`, `register_class`, or
`register_factory` with that identity fails with `DuplicateRegistration` and
returns the container state unchanged, so a subsequent `resolve` behaves as
after the first registration. -/
theorem C1_duplicate_registration_rejected (c : RustContainer) (k : TypeKey)
    (h : containsEntry c.providers k = true) (v cls f : PyObj) :
    c.register_instance k v = (.error (.DuplicateRegistration k.type_name), c) ∧
    c.register_class k cls = (.error (.DuplicateRegistration k.type_name), c) ∧
    c.register_factory k f = (.error (.DuplicateRegistration k.type_name), c) ∧
    (∀ (w : PyWorld) (i : TypeKey),
      ((c.register_instance k v).2).resolve w i = c.resolve w i) ∧
    (∀ (w : PyWorld) (i : TypeKey),
      ((c.register_class k cls).2).resolve w i = c.resolve w i) ∧
    (∀ (w : PyWorld) (i : TypeKey),
      ((c.register_factory k f).2).resolve w i = c.resolve w i) := by
  simp [RustContainer.register_instance, RustContainer.register_class,
    RustContainer.register_factory, h]

/-- Witness for C1: `cDemo` already holds `kA`, and re-registering `kA` fails
with `DuplicateRegistration` leaving the state unchanged. -/
theorem C1_duplicate_registration_rejected_witness :
    containsEntry cDemo.providers kA = true ∧
    cDemo.register_instance kA 7 =
      (.error (.DuplicateRegistration kA.type_name), cDemo) ∧
    cDemo.register_class kA 8 =
      (.error (.DuplicateRegistration kA.type_name), cDemo) ∧
    cDemo.register_factory kA 9 =
      (.error (.DuplicateRegistration kA.type_name), cDemo) := by
  refine ⟨rfl, ?_, ?_, ?_⟩
  · exact (C1_duplicate_registration_rejected cDemo kA rfl 7 8 9).1
  · exact (C1_duplicate_registration_rejected cDemo kA rfl 7 8 9).2.1
  · exact (C1_duplicate_registration_rejected cDemo kA rfl 7 8 9).2.2.1

/-- C2: when an identity has no entry in the registry and none in the
singleton cache, `resolve` fails with `DependencyNotRegistered` naming that
identity (and changes nothing). -/
theorem C2_unregistered_resolve_fails (c : RustContainer) (w : PyWorld)
    (k : TypeKey) (hs : findEntry c.singletons k = none)
    (hp : findEntry c.providers k = none) :
    c.resolve w k = (.error (.DependencyNotRegistered k.type_name), c, w) := by
  simp [RustContainer.resolve, hs, hp]

/-- Witness for C2: the empty container, and the non-empty `cDemo` missing
`kB`, both fail to resolve with `DependencyNotRegistered`. -/
theorem C2_unregistered_resolve_fails_witness :
    (findEntry RustContainer.new.singletons kB = none ∧
      findEntry RustContainer.new.providers kB = none ∧
      RustContainer.new.resolve wDemo kB =
        (.error (.DependencyNotRegistered kB.type_name), RustContainer.new, wDemo)) ∧
    (findEntry cDemo.singletons kB = none ∧
      findEntry cDemo.providers kB = none ∧
      cDemo.resolve wDemo kB =
        (.error (.DependencyNotRegistered kB.type_name), cDemo, wDemo)) :=
  ⟨⟨rfl, rfl, C2_unregistered_resolve_fails RustContainer.new wDemo kB rfl rfl⟩,
   ⟨rfl, rfl, C2_unregistered_resolve_fails cDemo wDemo kB rfl rfl⟩⟩

/-- C6: `TypeKey` equality holds iff the two keys reference the same
underlying type descriptor (pointer identity); two distinct descriptors
sharing a display name are different keys; hashing is consistent with this
equality (the hash is a function of the pointer alone, so equal keys hash
equally under every hasher). -/
theorem C6_typekey_identity_equality (a b : TypeKey) :
    (TypeKey.eqKey a b = true ↔ a.py_type.ptr = b.py_type.ptr) ∧
    (a.py_type.name = b.py_type.name → a.py_type.ptr ≠ b.py_type.ptr →
      TypeKey.eqKey a b = false) ∧
    (TypeKey.eqKey a b = true →
      ∀ h : Nat → Nat, TypeKey.hashKey h a = TypeKey.hashKey h b) := by
  refine ⟨?_, ?_, ?_⟩
  · simp [TypeKey.eqKey]
  · intro _ hne
    simpa [TypeKey.eqKey] using hne
  · intro heq h
    simp only [TypeKey.eqKey, beq_iff_eq] at heq
    simp [TypeKey.hashKey, heq]

/-- Witness for C6: `kA` and `kSameNameAsA` share the display name
`ServiceA` but wrap distinct descriptors, so they are unequal keys, while a
key always equals itself and hashes consistently. -/
theorem C6_typekey_identity_equality_witness :
    kA.py_type.name = kSameNameAsA.py_type.name ∧
    kA.py_type.ptr ≠ kSameNameAsA.py_type.ptr ∧
    TypeKey.eqKey kA kSameNameAsA = false ∧
    TypeKey.eqKey kA kA = true ∧
    TypeKey.hashKey (· * 2) kA = TypeKey.hashKey (· * 2) kA :=
  ⟨rfl, by decide,
   (C6_typekey_identity_equality kA kSameNameAsA).2.1 rfl (by decide),
   rfl,
   (C6_typekey_identity_equality kA kA).2.2 rfl (· * 2)⟩

/-- C8: when the singleton cache holds an entry for the identity, `resolve`
returns a shared handle to the cached value, unchanged state, no construction
(the call log is untouched), and the result does not depend on the registry
at all — whatever providers map is substituted, the outcome is the same. -/
theorem C8_cache_hit (c : RustContainer) (w : PyWorld) (k : TypeKey)
    (inst : PyObj) (hs : findEntry c.singletons k = some inst) :
    c.resolve w k = (.ok inst, c, w) ∧
    ∀ P : List (TypeKey × Provider),
      RustContainer.resolve { c with providers := P } w k =
        (.ok inst, { c with providers := P }, w) := by
  constructor
  · simp [RustContainer.resolve, hs, clone_ref]
  · intro P
    simp [RustContainer.resolve, hs, clone_ref]

/-- Witness for C8: `cCached` holds `42` for `kA` in its cache; `resolve`
returns it, even with the registry replaced by one that maps `kA` to a
different provider. -/
theorem C8_cache_hit_witness :
    findEntry cCached.singletons kA = some 42 ∧
    cCached.resolve wDemo kA = (.ok 42, cCached, wDemo) ∧
    RustContainer.resolve { cCached with providers := [(kA, .Instance 0)] } wDemo kA =
      (.ok 42, { cCached with providers := [(kA, .Instance 0)] }, wDemo) :=
  ⟨rfl, (C8_cache_hit cCached wDemo kA 42 rfl).1,
   (C8_cache_hit cCached wDemo kA 42 rfl).2 [(kA, .Instance 0)]⟩

/-- C3: for every reachable container and every identity registered with an
`Instance` provider holding `v`, `N` successive `resolve` calls all return the
same underlying value `v` (identity-equal: the same `PyObj`), leave the state
unchanged, and invoke no constructor or factory (the call log is untouched). -/
theorem C3_instance_provider_identity_stable (c : RustContainer)
    (hc : Reachable c) (k : TypeKey) (v : PyObj)
    (hp : findEntry c.providers k = some (.Instance v)) (w : PyWorld) (n : Nat) :
    resolveTimes c w k n = (List.replicate n (.ok v), c, w) := by
  have hs : c.singletons = [] := reachable_singletons c hc
  induction n generalizing w with
  | zero => rfl
  | succ m ih =>
    have h1 : c.resolve w k = (.ok v, c, w) := by
      simp [RustContainer.resolve, hs, hp, clone_ref, findEntry]
    simp [resolveTimes, h1, ih, List.replicate_succ]

/-- Witness for C3: in `cDemo` (reachable by registering `Instance 5` at
`kA`), three successive resolves each return the value with identity `5` and
change nothing. -/
theorem C3_instance_provider_identity_stable_witness :
    Reachable cDemo ∧
    findEntry cDemo.providers kA = some (.Instance 5) ∧
    resolveTimes cDemo wDemo kA 3 = (List.replicate 3 (.ok 5), cDemo, wDemo) :=
  ⟨⟨wDemo, [.regInstance kA 5], rfl⟩, rfl,
   C3_instance_provider_identity_stable cDemo ⟨wDemo, [.regInstance kA 5], rfl⟩
     kA 5 rfl wDemo 3⟩

/-- C4: for every reachable container and every identity registered with a
`Class` or `Factory` provider whose callable constructs, each `resolve`
invokes the callable afresh (one new entry in the call log), returns the
newly allocated value, and returns the container unchanged (nothing is
written to the singleton cache); two consecutive resolves hence produce two
distinct values. -/
theorem C4_class_factory_always_fresh (c : RustContainer) (hc : Reachable c)
    (k : TypeKey) (g : PyObj)
    (hp : findEntry c.providers k = some (.Class g) ∨
          findEntry c.providers k = some (.Factory g))
    (w : PyWorld) (hg : w.callSpec g = .constructs) :
    c.resolve w k = (.ok w.nextId, c, afterConstruct w g) ∧
    c.resolve (afterConstruct w g) k =
      (.ok (w.nextId + 1), c, afterConstruct (afterConstruct w g) g) ∧
    w.nextId ≠ w.nextId + 1 := by
  have hs : c.singletons = [] := reachable_singletons c hc
  rcases hp with hp | hp <;>
    exact ⟨by simp [RustContainer.resolve, hs, hp, call0, hg, afterConstruct, findEntry],
      by simp [RustContainer.resolve, hs, hp, call0, hg, afterConstruct, findEntry],
      by omega⟩

/-- Witness for C4: in `cClassDemo` (reachable by registering `Class 9` at
`kB`) under the constructing runtime `wDemo` (next fresh identity 10), the
first resolve returns the object with identity 10, the second the object with
identity 11, and the two are distinct. -/
theorem C4_class_factory_always_fresh_witness :
    Reachable cClassDemo ∧
    findEntry cClassDemo.providers kB = some (.Class 9) ∧
    wDemo.callSpec 9 = .constructs ∧
    cClassDemo.resolve wDemo kB = (.ok 10, cClassDemo, afterConstruct wDemo 9) ∧
    cClassDemo.resolve (afterConstruct wDemo 9) kB =
      (.ok 11, cClassDemo, afterConstruct (afterConstruct wDemo 9) 9) ∧
    (10 : Nat) ≠ 11 :=
  ⟨⟨wDemo, [.regClass kB 9], rfl⟩, rfl, rfl,
   (C4_class_factory_always_fresh cClassDemo ⟨wDemo, [.regClass kB 9], rfl⟩
      kB 9 (Or.inl rfl) wDemo rfl).1,
   (C4_class_factory_always_fresh cClassDemo ⟨wDemo, [.regClass kB 9], rfl⟩
      kB 9 (Or.inl rfl) wDemo rfl).2.1,
   by decide⟩

/-- Counterexample to C5 as stated: `ContainerError` has no
`ConstructionFailed{identity, cause}` variant.  With two distinct identities
(`kA`, `kB`, distinct display names) both registered to the same raising
factory, the two `resolve` failures are the *identical* error value
`PythonError "ValueError: boom"` — the error carries no identity, and the
cause has been stringified rather than passed through as-is. -/
theorem C5_counterexample :
    (cTwoFactories.resolve wRaising kA).1 =
      .error (.PythonError (pyErrToDisplay ⟨"ValueError", "boom"⟩)) ∧
    (cTwoFactories.resolve wRaising kB).1 =
      .error (.PythonError (pyErrToDisplay ⟨"ValueError", "boom"⟩)) ∧
    (cTwoFactories.resolve wRaising kA).1 = (cTwoFactories.resolve wRaising kB).1 ∧
    kA ≠ kB ∧
    kA.type_name ≠ kB.type_name :=
  ⟨rfl, rfl, rfl, by decide, by decide⟩

/-- C5 (amended): when the underlying constructor or factory raises during
resolve of a `Class` or `Factory` provider, `resolve` fails with the error
kind `PythonError` — distinct from `DependencyNotRegistered` — carrying only
the stringified cause (`err.to_string()`); the identity is not part of the
error and the cause is not passed through as a structured value. -/
theorem C5_construction_failure_distinct_kind (c : RustContainer) (w : PyWorld)
    (k : TypeKey) (g : PyObj) (e : PyErr)
    (hs : findEntry c.singletons k = none)
    (hp : findEntry c.providers k = some (.Class g) ∨
          findEntry c.providers k = some (.Factory g))
    (hg : w.callSpec g = .raises e) :
    (c.resolve w k).1 = .error (.PythonError (pyErrToDisplay e)) ∧
    ∀ t, (c.resolve w k).1 ≠ .error (.DependencyNotRegistered t) := by
  have h1 : (c.resolve w k).1 = .error (.PythonError (pyErrToDisplay e)) := by
    rcases hp with hp | hp <;>
      simp [RustContainer.resolve, hs, hp, call0, hg, containerErrorFromPyErr]
  exact ⟨h1, fun t hne => by rw [h1] at hne; simp at hne⟩

/-- Witness for C5 (amended): resolving `kA` in `cTwoFactories` under the
raising runtime fails with `PythonError "ValueError: boom"`, which is not a
`DependencyNotRegistered` error. -/
theorem C5_construction_failure_distinct_kind_witness :
    (cTwoFactories.resolve wRaising kA).1 =
      .error (.PythonError (pyErrToDisplay ⟨"ValueError", "boom"⟩)) ∧
    ∀ t, (cTwoFactories.resolve wRaising kA).1 ≠
      .error (.DependencyNotRegistered t) :=
  C5_construction_failure_distinct_kind cTwoFactories wRaising kA 9
    ⟨"ValueError", "boom"⟩ rfl (Or.inr rfl) rfl

/-- C7: along every run from a fresh container, `len` equals the number of
successful registrations; `is_empty` is true iff `len = 0`; `resolve` changes
neither; and both read only the registry — replacing the singleton cache
changes neither value. -/
theorem C7_len_is_registration_count :
    (∀ (w0 : PyWorld) (ops : List Op),
      (run w0 ops).1.len = countOkRegs (RustContainer.new, w0) ops) ∧
    (∀ c : RustContainer, c.is_empty = true ↔ c.len = 0) ∧
    (∀ (c : RustContainer) (w : PyWorld) (k : TypeKey),
      (c.resolve w k).2.1.len = c.len ∧
      (c.resolve w k).2.1.is_empty = c.is_empty) ∧
    (∀ (c : RustContainer) (s : List (TypeKey × PyObj)),
      RustContainer.len { c with singletons := s } = c.len ∧
      RustContainer.is_empty { c with singletons := s } = c.is_empty) := by
  refine ⟨?_, is_empty_iff_len, ?_, ?_⟩
  · intro w0 ops
    simpa [run, RustContainer.new, RustContainer.len] using
      foldl_len ops (RustContainer.new, w0)
  · intro c w k
    rw [resolve_container_eq]
    exact ⟨rfl, rfl⟩
  · intro c s
    exact ⟨rfl, rfl⟩

/-- Witness for C7: after a successful registration and a rejected duplicate,
`len` counts exactly the one successful registration; the fresh container is
empty; a resolve on `cDemo` leaves `len` unchanged. -/
theorem C7_len_is_registration_count_witness :
    (run wDemo [.regInstance kA 5, .regInstance kA 7]).1.len =
      countOkRegs (RustContainer.new, wDemo) [.regInstance kA 5, .regInstance kA 7] ∧
    (RustContainer.new.is_empty = true ↔ RustContainer.new.len = 0) ∧
    (cDemo.resolve wDemo kA).2.1.len = cDemo.len :=
  ⟨C7_len_is_registration_count.1 wDemo [.regInstance kA 5, .regInstance kA 7],
   C7_len_is_registration_count.2.1 RustContainer.new,
   (C7_len_is_registration_count.2.2.1 cDemo wDemo kA).1⟩

/-- C9: in every state reachable through the public surface the singleton
cache is empty, so the cache-hit branch of `resolve` never fires and `resolve`
coincides with the registry-only lookup-and-dispatch for every identity. -/
theorem C9_cache_never_populated (w0 : PyWorld) (ops : List Op) :
    (run w0 ops).1.singletons = [] ∧
    ∀ (w : PyWorld) (k : TypeKey),
      (run w0 ops).1.resolve w k = resolveRegistryOnly (run w0 ops).1 w k :=
  ⟨run_singletons w0 ops,
   fun w k => resolve_eq_registryOnly _ w k (run_singletons w0 ops)⟩

/-- Witness for C9: after registering a class and resolving it twice, the
cache is still empty and `resolve` equals the registry-only dispatch. -/
theorem C9_cache_never_populated_witness :
    (run wDemo [.regClass kB 9, .resolveOp kB, .resolveOp kB]).1.singletons = [] ∧
    (run wDemo [.regClass kB 9, .resolveOp kB, .resolveOp kB]).1.resolve wDemo kB =
      resolveRegistryOnly (run wDemo [.regClass kB 9, .resolveOp kB, .resolveOp kB]).1
        wDemo kB :=
  ⟨(C9_cache_never_populated wDemo [.regClass kB 9, .resolveOp kB, .resolveOp kB]).1,
   (C9_cache_never_populated wDemo [.regClass kB 9, .resolveOp kB, .resolveOp kB]).2
     wDemo kB⟩

/-- C10: every error of the four facade methods is the single exception type
`KeyError` carrying only the formatted message string of the underlying
container error, so the error kinds are not distinguishable by exception type
at the public boundary. -/
theorem C10_facade_errors_are_keyerror (c : RustContainer) (w : PyWorld)
    (t : PyTypeObj) (v cls f : PyObj) :
    (∀ e, (Container.register_instance c t v).1 = .error e →
      ∃ ce, (c.register_instance (TypeKey.new t) v).1 = .error ce ∧
        e = ⟨"KeyError", containerErrorToDisplay ce⟩) ∧
    (∀ e, (Container.register_class c t cls).1 = .error e →
      ∃ ce, (c.register_class (TypeKey.new t) cls).1 = .error ce ∧
        e = ⟨"KeyError", containerErrorToDisplay ce⟩) ∧
    (∀ e, (Container.register_factory c t f).1 = .error e →
      ∃ ce, (c.register_factory (TypeKey.new t) f).1 = .error ce ∧
        e = ⟨"KeyError", containerErrorToDisplay ce⟩) ∧
    (∀ e, (Container.resolve c w t).1 = .error e →
      ∃ ce, (c.resolve w (TypeKey.new t)).1 = .error ce ∧
        e = ⟨"KeyError", containerErrorToDisplay ce⟩) := by
  refine ⟨?_, ?_, ?_, ?_⟩
  · intro e he
    simp only [Container.register_instance] at he
    cases h : (c.register_instance (TypeKey.new t) v).1 with
    | ok u => rw [h] at he; simp [Except.mapError] at he
    | error ce =>
      rw [h] at he
      simp only [Except.mapError, Except.error.injEq] at he
      exact ⟨ce, rfl, by rw [← he]; rfl⟩
  · intro e he
    simp only [Container.register_class] at he
    cases h : (c.register_class (TypeKey.new t) cls).1 with
    | ok u => rw [h] at he; simp [Except.mapError] at he
    | error ce =>
      rw [h] at he
      simp only [Except.mapError, Except.error.injEq] at he
      exact ⟨ce, rfl, by rw [← he]; rfl⟩
  · intro e he
    simp only [Container.register_factory] at he
    cases h : (c.register_factory (TypeKey.new t) f).1 with
    | ok u => rw [h] at he; simp [Except.mapError] at he
    | error ce =>
      rw [h] at he
      simp only [Except.mapError, Except.error.injEq] at he
      exact ⟨ce, rfl, by rw [← he]; rfl⟩
  · intro e he
    simp only [Container.resolve] at he
    cases h : (c.resolve w (TypeKey.new t)).1 with
    | ok u => rw [h] at he; simp [Except.mapError] at he
    | error ce =>
      rw [h] at he
      simp only [Except.mapError, Except.error.injEq] at he
      exact ⟨ce, rfl, by rw [← he]; rfl⟩

/-- Witness for C10: the facade surfaces a duplicate registration on `cDemo`
as a `KeyError` whose message is the formatted `DuplicateRegistration`
string. -/
theorem C10_facade_errors_are_keyerror_witness :
    (Container.register_instance cDemo tA 7).1 =
      .error ⟨"KeyError", "Duplicate provider registration: ServiceA"⟩ ∧
    ∃ ce, (cDemo.register_instance (TypeKey.new tA) 7).1 = .error ce ∧
      (⟨"KeyError", "Duplicate provider registration: ServiceA"⟩ : PyErr) =
        ⟨"KeyError", containerErrorToDisplay ce⟩ :=
  ⟨rfl,
   (C10_facade_errors_are_keyerror cDemo wDemo tA 7 0 0).1
     ⟨"KeyError", "Duplicate provider registration: ServiceA"⟩ rfl⟩

end Dioxide
